import Mathlib

/-!
# Framebuffer device: a shallow embedding of `fb.go`

The Go package maps a Linux framebuffer device into memory and exposes it as a
`draw.Image`.  The embedding below follows `fb.go` function by function.

* The operating system is an explicit record of answers (`Env`): what
  `os.OpenFile` returned, what the two `ioctl` queries left in their records,
  and what `syscall.Mmap` answers for a requested length.
* `C.uint` values are naturals below `2 ^ 32` (`uint32`); arithmetic on them
  wraps with an explicit `% 2 ^ 32`.
* Go `int` is the 64-bit `int`.  Pixel offsets are computed over `Int` without
  wrapping: for a device built by `Open` the pitch, width and height are below
  `2 ^ 32`, so for an in-bounds pixel a wrapped offset is negative exactly when
  the exact one is at least `2 ^ 63`, and both index outside every slice
  (`offset64_exact_or_negative`, `Open_ok_ranges`).
* A run-time panic of `Set` is an outcome of its own that keeps the buffer as
  it was when the panic happened (the buffer is shared with the kernel).
-/

namespace framebuffer

/-! ## Machine types -/

/-- A `C.uint` / Go `uint32`. -/
abbrev uint32 := Fin 4294967296

/-- One byte of the mapped buffer (`[]byte` element). -/
abbrev Byte := Fin 256

/-- Modelled from the spec: the declaration of the type `rgb565` is not in
`fb.go`; the spec calls it the 16-bit packed pixel (5/6/5 bits for
red/green/blue), so it is an unsigned 16-bit integer. -/
abbrev rgb565 := Fin 65536

/-- Go conversion `byte(v)` of an unsigned integer value: the low 8 bits. -/
def byte (v : Nat) : Byte := ⟨v % 256, Nat.mod_lt v (by decide)⟩

/-- Conversion to the 16-bit type `rgb565` of an unsigned value: the low 16 bits. -/
def toU16 (v : Nat) : rgb565 := ⟨v % 65536, Nat.mod_lt v (by decide)⟩

/-- An `errno` as returned by the operating system. -/
abbrev Errno := Nat

/-- An open file (its descriptor). -/
abbrev File := Nat

/-! ## Kernel records (`linux/fb.h`) -/

/-- The record `struct fb_bitfield`: where one colour channel sits in a pixel. -/
structure fb_bitfield where
  offset : uint32
  length : uint32
  msb_right : uint32
  deriving DecidableEq, Repr

/-- The fields of `struct fb_var_screeninfo` that `Open` reads. -/
structure fb_var_screeninfo where
  xres : uint32
  yres : uint32
  bits_per_pixel : uint32
  red : fb_bitfield
  green : fb_bitfield
  blue : fb_bitfield
  deriving DecidableEq, Repr

/-- The field of `struct fb_fix_screeninfo` that `Open` reads. -/
structure fb_fix_screeninfo where
  line_length : uint32
  deriving DecidableEq, Repr

/-- What one `ioctl` call did: its return status (`-1` on failure) and the
contents of the record it was given, whatever they are. -/
structure Ioctl (α : Type) where
  status : Int
  info : α

/-- C helper `getFixScreenInfo`: the status of `ioctl` is dropped and the
record is returned as it is. -/
def getFixScreenInfo (q : Ioctl fb_fix_screeninfo) : fb_fix_screeninfo := q.info

/-- C helper `getVarScreenInfo`: the status of `ioctl` is dropped and the
record is returned as it is. -/
def getVarScreenInfo (q : Ioctl fb_var_screeninfo) : fb_var_screeninfo := q.info

/-! ## Images (`image`, `image/color`) -/

/-- Go `image.Point`. -/
structure Point where
  X : Int
  Y : Int
  deriving DecidableEq, Repr

/-- Go `image.Rectangle`. -/
structure Rectangle where
  Min : Point
  Max : Point
  deriving DecidableEq, Repr

/-- Go `image.Rect`: the rectangle of the four coordinates, with the
coordinates of each axis put in order. -/
def image.Rect (x0 y0 x1 y1 : Int) : Rectangle :=
  let xa := if x0 > x1 then x1 else x0
  let xb := if x0 > x1 then x0 else x1
  let ya := if y0 > y1 then y1 else y0
  let yb := if y0 > y1 then y0 else y1
  ⟨⟨xa, ya⟩, ⟨xb, yb⟩⟩

/-- The two colour models `Open` can select. -/
inductive ColorModel where
  | rgb565ColorModel
  | rgb888ColorModel
  deriving DecidableEq, Repr

/-- A Go `color.Color`, given by what its method `RGBA()` returns. -/
structure Color where
  r : uint32
  g : uint32
  b : uint32
  a : uint32
  deriving DecidableEq, Repr

/-! ## The device -/

/-- Go `Device`. -/
structure Device where
  file : File
  pixels : List Byte
  pitch : Int
  bounds : Rectangle
  colorModel : ColorModel
  deriving DecidableEq, Repr

/-- What the operating system still holds for the caller of `Open`. -/
structure Resources where
  fileOpen : Bool
  mapped : Bool
  deriving DecidableEq, Repr

/-- The errors `Open` returns. -/
inductive OpenError where
  | openFile (e : Errno)
  | mmap (e : Errno)
  | unsupportedColorModel (msg : String)
  deriving DecidableEq, Repr

/-- The answers of the operating system during one call of `Open`. -/
structure Env where
  openFile : Except Errno File
  fixQuery : Ioctl fb_fix_screeninfo
  varQuery : Ioctl fb_var_screeninfo
  mmap : Nat → Except Errno (List Byte)

/-- The length `Open` passes to `syscall.Mmap`:
`int(varInfo.xres*varInfo.yres*varInfo.bits_per_pixel/8)`, the product being
computed in `C.uint`. -/
def mmapLength (varInfo : fb_var_screeninfo) : Nat :=
  ((varInfo.xres.val * varInfo.yres.val % 4294967296)
      * varInfo.bits_per_pixel.val % 4294967296) / 8

/-- The closure `detectColorMode` of `Open`: all nine fields are compared. -/
def detectColorMode (varInfo : fb_var_screeninfo)
    (roff goff boff rlen glen blen rmsb gmsb bmsb : uint32) : Bool :=
  varInfo.red.offset == roff && varInfo.red.length == rlen && varInfo.red.msb_right == rmsb &&
  varInfo.green.offset == goff && varInfo.green.length == glen && varInfo.green.msb_right == gmsb &&
  varInfo.blue.offset == boff && varInfo.blue.length == blen && varInfo.blue.msb_right == bmsb

/-- Format verb `%04v` on a `C.uint`: decimal, padded with zeros to width 4. -/
def fmt04 (v : uint32) : String :=
  let s := toString v.val
  String.mk (List.replicate (4 - s.length) '0') ++ s

/-- The message of the error for a layout that is not supported. -/
def unsupportedMessage (varInfo : fb_var_screeninfo) : String :=
  "unsupported color model.\n" ++
  "      offset length  msb_right\n" ++
  "red:   " ++ fmt04 varInfo.red.offset ++ "   " ++ fmt04 varInfo.red.length ++
    "   " ++ fmt04 varInfo.red.msb_right ++ "\n" ++
  "green: " ++ fmt04 varInfo.green.offset ++ "   " ++ fmt04 varInfo.green.length ++
    "   " ++ fmt04 varInfo.green.msb_right ++ "\n" ++
  "blue:  " ++ fmt04 varInfo.blue.offset ++ "   " ++ fmt04 varInfo.blue.length ++
    "   " ++ fmt04 varInfo.blue.msb_right ++ "\n"

/-- Go `Open`: the result, and what is still open or mapped when it returns. -/
def Open (env : Env) : Except OpenError Device × Resources :=
  match env.openFile with
  | .error err => (.error (.openFile err), ⟨false, false⟩)
  | .ok file =>
    let fixInfo := getFixScreenInfo env.fixQuery
    let varInfo := getVarScreenInfo env.varQuery
    match env.mmap (mmapLength varInfo) with
    | .error err =>
      -- `_ = file.Close()`
      (.error (.mmap err), ⟨false, false⟩)
    | .ok pixels =>
      if detectColorMode varInfo 11 5 0 5 6 0 0 5 0 then
        (.ok ⟨file, pixels, (fixInfo.line_length.val : Int),
              image.Rect 0 0 (varInfo.xres.val : Int) (varInfo.yres.val : Int),
              .rgb565ColorModel⟩, ⟨true, true⟩)
      else if detectColorMode varInfo 16 8 0 8 8 0 0 8 0 then
        (.ok ⟨file, pixels, (fixInfo.line_length.val : Int),
              image.Rect 0 0 (varInfo.xres.val : Int) (varInfo.yres.val : Int),
              .rgb888ColorModel⟩, ⟨true, true⟩)
      else
        (.error (.unsupportedColorModel (unsupportedMessage varInfo)), ⟨true, true⟩)

/-- Go `Device.Bounds`. -/
def Device.Bounds (d : Device) : Rectangle := d.bounds

/-- Go `Device.ColorModel`. -/
def Device.ColorModel (d : Device) : ColorModel := d.colorModel

/-- Go slice read `xs[i]` with an `int` index: `none` is the index-out-of-range
panic. -/
def index (xs : List Byte) (i : Int) : Option Byte :=
  if 0 ≤ i then xs[i.toNat]? else none

/-- Go slice write `xs[i] = v` with an `int` index: `none` is the
index-out-of-range panic. -/
def store (xs : List Byte) (i : Int) (v : Byte) : Option (List Byte) :=
  if 0 ≤ i ∧ i.toNat < xs.length then some (xs.set i.toNat v) else none

/-- How a call that writes ended: it returned, or it panicked; both carry the
device as the call left it. -/
inductive Outcome where
  | done (d : Device)
  | panic (d : Device)
  deriving DecidableEq, Repr

/-- The device a call left behind. -/
def Outcome.device : Outcome → Device
  | .done d => d
  | .panic d => d

/-- The byte offset `y*d.pitch + 2*x` that `At` and `Set` both compute. -/
def Device.offset (d : Device) (x y : Int) : Int := y * d.pitch + 2 * x

/-- Go `Device.At`; `none` is the index-out-of-range panic.  The operands of
`|` are evaluated left to right, so `pixels[i+1]` is read first. -/
def Device.At (d : Device) (x y : Int) : Option rgb565 :=
  if x < d.bounds.Min.X ∨ x ≥ d.bounds.Max.X ∨
      y < d.bounds.Min.Y ∨ y ≥ d.bounds.Max.Y then
    some (toU16 0)
  else
    let i := d.offset x y
    match index d.pixels (i + 1) with
    | none => none
    | some hi =>
      match index d.pixels i with
      | none => none
      | some lo => some (toU16 ((hi.val <<< 8) % 65536 ||| lo.val))

/-- Go `Device.Set`.  The function `toRGB565` is not in `fb.go` and is a
parameter; it returns an `rgb565`. -/
def Device.Set (toRGB565 : uint32 → uint32 → uint32 → rgb565)
    (d : Device) (x y : Int) (c : Color) : Outcome :=
  if x ≥ 0 ∧ x < d.bounds.Max.X ∧ y ≥ 0 ∧ y < d.bounds.Max.Y then
    if c.a.val > 0 then
      let rgb := toRGB565 c.r c.g c.b
      let i := d.offset x y
      match store d.pixels (i + 1) (byte (rgb.val >>> 8)) with
      | none => .panic d
      | some p1 =>
        match store p1 i (byte (rgb.val &&& 0xFF)) with
        | none => .panic { d with pixels := p1 }
        | some p2 => .done { d with pixels := p2 }
    else .done d
  else .done d

/-- The RGB565 reference layout of the spec: red 11/5/0, green 5/6/0,
blue 0/5/0 (offset/length/msb). -/
def rgb565Layout (v : fb_var_screeninfo) : Prop :=
  v.red = ⟨11, 5, 0⟩ ∧ v.green = ⟨5, 6, 0⟩ ∧ v.blue = ⟨0, 5, 0⟩

/-- The RGB888 reference layout of the spec: red 16/8/0, green 8/8/0,
blue 0/8/0 (offset/length/msb). -/
def rgb888Layout (v : fb_var_screeninfo) : Prop :=
  v.red = ⟨16, 8, 0⟩ ∧ v.green = ⟨8, 8, 0⟩ ∧ v.blue = ⟨0, 8, 0⟩

instance (v : fb_var_screeninfo) : Decidable (rgb565Layout v) := by
  unfold rgb565Layout; infer_instance

instance (v : fb_var_screeninfo) : Decidable (rgb888Layout v) := by
  unfold rgb888Layout; infer_instance

/-- The operating system when the file opens as `file`, the two queries leave
`fixInfo` and `varInfo`, and the mapping succeeds with `pixels`. -/
def envOk (file : File) (fixInfo : fb_fix_screeninfo) (varInfo : fb_var_screeninfo)
    (pixels : List Byte) : Env :=
  ⟨.ok file, ⟨0, fixInfo⟩, ⟨0, varInfo⟩, fun _ => .ok pixels⟩

/-- Modelled from the spec: the packed width of a pixel, "2 or 4 bytes",
2 for RGB565 and 4 for RGB888.  Nothing in `fb.go` computes it. -/
def bytesPerPixel : ColorModel → Int
  | .rgb565ColorModel => 2
  | .rgb888ColorModel => 4

/-- A conversion that packs every colour to the same value. -/
def constRGB565 (v : rgb565) : uint32 → uint32 → uint32 → rgb565 := fun _ _ _ => v

/-- Opaque red as `RGBA()` returns it (16 bits per channel). -/
def opaqueRed : Color := ⟨65535, 0, 0, 65535⟩

/-- A padded 16-bit screen: 1 pixel wide, 2 rows, 4 bytes per row, with the
layout `Open` takes for RGB565. -/
def paddedVarInfo : fb_var_screeninfo := ⟨1, 2, 16, ⟨11, 5, 0⟩, ⟨5, 6, 5⟩, ⟨0, 0, 0⟩⟩

/-- The operating system for the padded screen: the mapping has the
`mmapLength paddedVarInfo = 4` bytes that `Open` asks for. -/
def paddedEnv : Env :=
  ⟨.ok 3, ⟨0, ⟨4⟩⟩, ⟨0, paddedVarInfo⟩, fun n => .ok (List.replicate n 0)⟩

/-- The device `Open` builds on the padded screen. -/
def paddedDevice : Device :=
  ⟨3, [0, 0, 0, 0], 4, ⟨⟨0, 0⟩, ⟨1, 2⟩⟩, .rgb565ColorModel⟩

/-- A 32-bit screen: 2 pixels wide, 1 row, 8 bytes per row, with the layout
`Open` takes for RGB888. -/
def wideVarInfo : fb_var_screeninfo := ⟨2, 1, 32, ⟨16, 8, 0⟩, ⟨8, 8, 8⟩, ⟨0, 0, 0⟩⟩

/-- The operating system for the 32-bit screen: the mapping has the
`mmapLength wideVarInfo = 8` bytes that `Open` asks for. -/
def wideEnv : Env :=
  ⟨.ok 3, ⟨0, ⟨8⟩⟩, ⟨0, wideVarInfo⟩, fun n => .ok (List.replicate n 0)⟩

/-- The device `Open` builds on the 32-bit screen. -/
def wideDevice : Device :=
  ⟨3, [0, 0, 0, 0, 0, 0, 0, 0], 8, ⟨⟨0, 0⟩, ⟨2, 1⟩⟩, .rgb888ColorModel⟩

/-- Modelled from the spec: the function `toRGB565` is not in `fb.go`.  The spec
says that under RGB565 an 8-bit channel value `v` quantizes to `v >> 3` for red
and blue and to `v >> 2` for green, with red at bit 11, green at bit 5 and blue
at bit 0; the 8-bit value of a channel is the high byte of the 16-bit value
that `RGBA()` returns. -/
def toRGB565 (r g b : uint32) : rgb565 :=
  toU16 ((r.val / 256 % 256 / 8) * 2048 + (g.val / 256 % 256 / 4) * 32
    + b.val / 256 % 256 / 8)

/-- One call on a device: `At(x, y)` or `Set(x, y, c)`. -/
inductive Call where
  | At (x y : Int)
  | Set (x y : Int) (c : Color)
  deriving DecidableEq, Repr

/-- A sequence of calls on a device, one after the other; a panic ends the
sequence and keeps the device as it was at the panic. -/
def runCalls (toRGB565 : uint32 → uint32 → uint32 → rgb565) : List Call → Device → Outcome
  | [], d => .done d
  | .At x y :: rest, d =>
    match d.At x y with
    | none => .panic d
    | some _ => runCalls toRGB565 rest d
  | .Set x y c :: rest, d =>
    match d.Set toRGB565 x y c with
    | .done d' => runCalls toRGB565 rest d'
    | .panic d' => .panic d'

/-- The operating system when the file opens, both queries are answered and the
mapping call fails with the requested length as its error number: what `Open`
returns then shows the length it asked for. -/
def lengthProbe (varInfo : fb_var_screeninfo) : Env :=
  ⟨.ok 3, ⟨0, ⟨0⟩⟩, ⟨0, varInfo⟩, fun n => .error n⟩

/-- A screen of 65536 x 65536 pixels at 16 bits per pixel. -/
def hugeVarInfo : fb_var_screeninfo :=
  ⟨65536, 65536, 16, ⟨11, 5, 0⟩, ⟨5, 6, 5⟩, ⟨0, 0, 0⟩⟩

/-- The screen of the scenario of the spec: 320 x 240 pixels at 16 bits per pixel. -/
def scenarioVarInfo : fb_var_screeninfo :=
  ⟨320, 240, 16, ⟨11, 5, 0⟩, ⟨5, 6, 5⟩, ⟨0, 0, 0⟩⟩

/-- The device of the scenario of the spec: 320 x 240 pixels, 640 bytes per row,
a buffer of 153600 zero bytes. -/
def scenarioDevice : Device :=
  ⟨3, List.replicate 153600 0, 640, ⟨⟨0, 0⟩, ⟨320, 240⟩⟩, .rgb565ColorModel⟩

/-- The value a 64-bit Go `int` holds after an operation whose exact result is
`z`: `z` reduced into `[-2^63, 2^63)`. -/
def wrap64 (z : Int) : Int :=
  (z + 9223372036854775808) % 18446744073709551616 - 9223372036854775808

/-- The offset `y*d.pitch + 2*x` as the 64-bit machine computes it, each
operation wrapping. -/
def Device.offset64 (d : Device) (x y : Int) : Int :=
  wrap64 (wrap64 (y * d.pitch) + wrap64 (2 * x))

/-! ## Colour-model detection -/

/-- Claim C1, evaluated on the code: with the RGB565 reference layout (red
11/5/0, green 5/6/0, blue 0/5/0), the file opened and the mapping made, `Open`
returns the unsupported-colour-model error and no device. -/
theorem Open_rgb565_reference_unsupported (file : File) (fixInfo : fb_fix_screeninfo)
    (xres yres bpp : uint32) (pixels : List Byte) :
    rgb565Layout ⟨xres, yres, bpp, ⟨11, 5, 0⟩, ⟨5, 6, 0⟩, ⟨0, 5, 0⟩⟩ ∧
    (Open (envOk file fixInfo ⟨xres, yres, bpp, ⟨11, 5, 0⟩, ⟨5, 6, 0⟩, ⟨0, 5, 0⟩⟩ pixels)).1
      = .error (.unsupportedColorModel
          (unsupportedMessage ⟨xres, yres, bpp, ⟨11, 5, 0⟩, ⟨5, 6, 0⟩, ⟨0, 5, 0⟩⟩)) := by
  refine ⟨⟨rfl, rfl, rfl⟩, ?_⟩
  simp [Open, envOk, getVarScreenInfo, detectColorMode]

/-- Claim C2, evaluated on the code: with the RGB888 reference layout (red
16/8/0, green 8/8/0, blue 0/8/0), the file opened and the mapping made, `Open`
returns the unsupported-colour-model error and no device. -/
theorem Open_rgb888_reference_unsupported (file : File) (fixInfo : fb_fix_screeninfo)
    (xres yres bpp : uint32) (pixels : List Byte) :
    rgb888Layout ⟨xres, yres, bpp, ⟨16, 8, 0⟩, ⟨8, 8, 0⟩, ⟨0, 8, 0⟩⟩ ∧
    (Open (envOk file fixInfo ⟨xres, yres, bpp, ⟨16, 8, 0⟩, ⟨8, 8, 0⟩, ⟨0, 8, 0⟩⟩ pixels)).1
      = .error (.unsupportedColorModel
          (unsupportedMessage ⟨xres, yres, bpp, ⟨16, 8, 0⟩, ⟨8, 8, 0⟩, ⟨0, 8, 0⟩⟩)) := by
  refine ⟨⟨rfl, rfl, rfl⟩, ?_⟩
  simp [Open, envOk, getVarScreenInfo, detectColorMode]

/-- Claim C3, evaluated on the code: the layout red 11/5/0, green 5/6/5,
blue 0/0/0 differs from both reference layouts (green msb flag, blue length),
yet `Open` succeeds on it and returns a device with the RGB565 model. -/
theorem Open_accepts_layout_outside_references (file : File) (fixInfo : fb_fix_screeninfo)
    (xres yres bpp : uint32) (pixels : List Byte) :
    ¬ rgb565Layout ⟨xres, yres, bpp, ⟨11, 5, 0⟩, ⟨5, 6, 5⟩, ⟨0, 0, 0⟩⟩ ∧
    ¬ rgb888Layout ⟨xres, yres, bpp, ⟨11, 5, 0⟩, ⟨5, 6, 5⟩, ⟨0, 0, 0⟩⟩ ∧
    (Open (envOk file fixInfo ⟨xres, yres, bpp, ⟨11, 5, 0⟩, ⟨5, 6, 5⟩, ⟨0, 0, 0⟩⟩ pixels)).1
      = .ok ⟨file, pixels, (fixInfo.line_length.val : Int),
             image.Rect 0 0 (xres.val : Int) (yres.val : Int), .rgb565ColorModel⟩ := by
  refine ⟨?_, ?_, ?_⟩
  · simp [rgb565Layout]
  · simp [rgb888Layout]
  · simp [Open, envOk, getVarScreenInfo, getFixScreenInfo, detectColorMode]

/-! ## Slices with `int` indices -/

theorem image_Rect_origin (w h : Nat) :
    image.Rect 0 0 (w : Int) (h : Int) = ⟨⟨0, 0⟩, ⟨(w : Int), (h : Int)⟩⟩ := by
  have hw : ¬ (0 : Int) > (w : Int) := by omega
  have hh : ¬ (0 : Int) > (h : Int) := by omega
  simp [image.Rect, hw, hh]

theorem index_of_inside (xs : List Byte) (i : Int) (h0 : 0 ≤ i) (h1 : i < xs.length) :
    index xs i = some (xs.get ⟨i.toNat, by omega⟩) := by
  have h : i.toNat < xs.length := by omega
  simp [index, h0, List.getElem?_eq_getElem h]

theorem store_of_inside (xs : List Byte) (i : Int) (v : Byte)
    (h0 : 0 ≤ i) (h1 : i < xs.length) :
    store xs i v = some (xs.set i.toNat v) := by
  have h : i.toNat < xs.length := by omega
  simp [store, h0, h]

theorem store_length (xs ys : List Byte) (i : Int) (v : Byte)
    (h : store xs i v = some ys) : ys.length = xs.length := by
  unfold store at h
  split at h
  · cases h; simp
  · cases h

theorem store_inside (xs ys : List Byte) (i : Int) (v : Byte)
    (h : store xs i v = some ys) : 0 ≤ i ∧ i < xs.length := by
  unfold store at h
  split at h
  · rename_i hc; omega
  · cases h

theorem index_store_same (xs ys : List Byte) (i : Int) (v : Byte)
    (h : store xs i v = some ys) : index ys i = some v := by
  have hin := store_inside xs ys i v h
  unfold store at h
  split at h
  · rename_i hc
    cases h
    simp [index, hin.1, hc.2]
  · cases h

theorem index_store_other (xs ys : List Byte) (i j : Int) (v : Byte)
    (h : store xs i v = some ys) (hne : j ≠ i) : index ys j = index xs j := by
  have hin := store_inside xs ys i v h
  unfold store at h
  split at h
  · cases h
    unfold index
    by_cases hj : 0 ≤ j
    · have hne2 : i.toNat ≠ j.toNat := by omega
      simp [hj, List.getElem?_set_ne hne2]
    · simp [hj]
  · cases h

theorem getElem?_store_other (xs ys : List Byte) (i : Int) (j : Nat) (v : Byte)
    (h : store xs i v = some ys) (hne : (j : Int) ≠ i) : ys[j]? = xs[j]? := by
  have hin := store_inside xs ys i v h
  unfold store at h
  split at h
  · cases h
    have hne2 : i.toNat ≠ j := by omega
    simp [List.getElem?_set_ne hne2]
  · cases h

/-- The two bytes `Set` stores, put together the way `At` does, give the packed
value back. -/
theorem pack_bytes (rgb : rgb565) :
    toU16 (((byte (rgb.val >>> 8)).val <<< 8) % 65536 ||| (byte (rgb.val &&& 0xFF)).val) = rgb := by
  have hlt := rgb.isLt
  apply Fin.ext
  have hand : rgb.val &&& 0xFF = rgb.val % 256 :=
    Nat.and_pow_two_sub_one_eq_mod rgb.val 8
  have hlo : rgb.val % 256 % 256 < 2 ^ 8 := by omega
  have hor := Nat.mul_add_lt_is_or hlo (rgb.val / 256 % 256)
  simp only [toU16, byte, hand, Nat.shiftRight_eq_div_pow, Nat.shiftLeft_eq]
  have e1 : rgb.val / 2 ^ 8 % 256 * 2 ^ 8 % 65536 = 2 ^ 8 * (rgb.val / 256 % 256) := by omega
  rw [e1, ← hor]
  omega

/-- Every device `Open` returns has the bounds `(0,0)-(xres,yres)`, the probed
line length as pitch and the mapped bytes as buffer. -/
theorem Open_ok_fields (env : Env) (d : Device) (h : (Open env).1 = .ok d) :
    d.bounds = image.Rect 0 0 ((getVarScreenInfo env.varQuery).xres.val : Int)
        ((getVarScreenInfo env.varQuery).yres.val : Int) ∧
    d.pitch = ((getFixScreenInfo env.fixQuery).line_length.val : Int) ∧
    env.mmap (mmapLength (getVarScreenInfo env.varQuery)) = .ok d.pixels := by
  unfold Open at h
  cases ho : env.openFile with
  | error e => simp [ho] at h
  | ok file =>
    cases hm : env.mmap (mmapLength (getVarScreenInfo env.varQuery)) with
    | error e => simp [ho, hm] at h
    | ok pixels =>
      simp only [ho, hm] at h
      by_cases h1 : detectColorMode (getVarScreenInfo env.varQuery) 11 5 0 5 6 0 0 5 0 = true
      · simp only [h1, if_true] at h
        cases h; exact ⟨rfl, rfl, rfl⟩
      · by_cases h2 : detectColorMode (getVarScreenInfo env.varQuery) 16 8 0 8 8 0 0 8 0 = true
        · simp only [h1, h2, if_true] at h
          cases h; exact ⟨rfl, rfl, rfl⟩
        · simp [h1, h2] at h

/-- What `Set` leaves behind, whether it returns or panics: every field but the
buffer is the same, the buffer has the same length, and every byte other than
the two at `offset` and `offset + 1` is the same. -/
theorem Set_frame (toRGB565 : uint32 → uint32 → uint32 → rgb565)
    (d : Device) (x y : Int) (c : Color) :
    (d.Set toRGB565 x y c).device.file = d.file ∧
    (d.Set toRGB565 x y c).device.pitch = d.pitch ∧
    (d.Set toRGB565 x y c).device.bounds = d.bounds ∧
    (d.Set toRGB565 x y c).device.colorModel = d.colorModel ∧
    (d.Set toRGB565 x y c).device.pixels.length = d.pixels.length ∧
    ∀ j : Nat, (j : Int) ≠ d.offset x y → (j : Int) ≠ d.offset x y + 1 →
      (d.Set toRGB565 x y c).device.pixels[j]? = d.pixels[j]? := by
  by_cases hg : x ≥ 0 ∧ x < d.bounds.Max.X ∧ y ≥ 0 ∧ y < d.bounds.Max.Y
  · by_cases ha : c.a.val > 0
    · cases h1 : store d.pixels (d.offset x y + 1) (byte ((toRGB565 c.r c.g c.b).val >>> 8)) with
      | none =>
        have hset : d.Set toRGB565 x y c = .panic d := by
          unfold Device.Set; simp only [if_pos hg, if_pos ha, h1]
        rw [hset]
        exact ⟨rfl, rfl, rfl, rfl, rfl, fun _ _ _ => rfl⟩
      | some p1 =>
        have l1 := store_length _ _ _ _ h1
        cases h2 : store p1 (d.offset x y) (byte ((toRGB565 c.r c.g c.b).val &&& 0xFF)) with
        | none =>
          have hset : d.Set toRGB565 x y c = .panic { d with pixels := p1 } := by
            unfold Device.Set; simp only [if_pos hg, if_pos ha, h1, h2]
          rw [hset]
          refine ⟨rfl, rfl, rfl, rfl, l1, ?_⟩
          intro j _ hj1
          exact getElem?_store_other _ _ _ _ _ h1 hj1
        | some p2 =>
          have l2 := store_length _ _ _ _ h2
          have hset : d.Set toRGB565 x y c = .done { d with pixels := p2 } := by
            unfold Device.Set; simp only [if_pos hg, if_pos ha, h1, h2]
          rw [hset]
          refine ⟨rfl, rfl, rfl, rfl, l2.trans l1, ?_⟩
          intro j hj0 hj1
          exact (getElem?_store_other _ _ _ _ _ h2 hj0).trans
            (getElem?_store_other _ _ _ _ _ h1 hj1)
    · have hset : d.Set toRGB565 x y c = .done d := by
        unfold Device.Set; simp only [if_pos hg, if_neg ha]
      rw [hset]
      exact ⟨rfl, rfl, rfl, rfl, rfl, fun _ _ _ => rfl⟩
  · have hset : d.Set toRGB565 x y c = .done d := by
      unfold Device.Set; simp only [if_neg hg]
    rw [hset]
    exact ⟨rfl, rfl, rfl, rfl, rfl, fun _ _ _ => rfl⟩

/-- When the guard of `Set` holds, alpha is above 0 and both bytes are inside the
buffer, `Set` returns with the high byte at `offset + 1` and the low byte at
`offset`. -/
theorem Set_writes (toRGB565 : uint32 → uint32 → uint32 → rgb565)
    (d : Device) (x y : Int) (c : Color)
    (hg : x ≥ 0 ∧ x < d.bounds.Max.X ∧ y ≥ 0 ∧ y < d.bounds.Max.Y)
    (ha : c.a.val > 0)
    (hlo : 0 ≤ d.offset x y) (hhi : d.offset x y + 1 < (d.pixels.length : Int)) :
    ∃ p2, d.Set toRGB565 x y c = .done { d with pixels := p2 } ∧
      index p2 (d.offset x y + 1) = some (byte ((toRGB565 c.r c.g c.b).val >>> 8)) ∧
      index p2 (d.offset x y) = some (byte ((toRGB565 c.r c.g c.b).val &&& 0xFF)) := by
  obtain ⟨p1, hs1⟩ : ∃ p1, store d.pixels (d.offset x y + 1)
      (byte ((toRGB565 c.r c.g c.b).val >>> 8)) = some p1 :=
    ⟨_, store_of_inside d.pixels (d.offset x y + 1) _ (by omega) (by omega)⟩
  have hl1 := store_length _ _ _ _ hs1
  obtain ⟨p2, hs2⟩ : ∃ p2, store p1 (d.offset x y)
      (byte ((toRGB565 c.r c.g c.b).val &&& 0xFF)) = some p2 :=
    ⟨_, store_of_inside p1 (d.offset x y) _ hlo (by omega)⟩
  have hne : d.offset x y + 1 ≠ d.offset x y := by omega
  refine ⟨p2, ?_, ?_, index_store_same _ _ _ _ hs2⟩
  · unfold Device.Set
    simp only [if_pos hg, if_pos ha, hs1, hs2]
  · rw [index_store_other _ _ _ _ _ hs2 hne]
    exact index_store_same _ _ _ _ hs1

/-- When `(x, y)` passes the guard of `At` and the two bytes of the pixel are
`hi` (at `offset + 1`) and `lo` (at `offset`), `At` returns `hi << 8 | lo`. -/
theorem At_of_bytes (d : Device) (x y : Int) (hi lo : Byte)
    (hg : ¬ (x < d.bounds.Min.X ∨ x ≥ d.bounds.Max.X ∨
      y < d.bounds.Min.Y ∨ y ≥ d.bounds.Max.Y))
    (h1 : index d.pixels (d.offset x y + 1) = some hi)
    (h0 : index d.pixels (d.offset x y) = some lo) :
    d.At x y = some (toU16 ((hi.val <<< 8) % 65536 ||| lo.val)) := by
  unfold Device.At
  simp only [if_neg hg, h1, h0]

/-- Two devices with the same bounds and pitch whose buffers agree on the two
bytes of pixel `(x, y)` give the same `At(x, y)`. -/
theorem At_congr (d d' : Device) (x y : Int)
    (hb : d'.bounds = d.bounds) (hp : d'.pitch = d.pitch)
    (h1 : index d'.pixels (d.offset x y + 1) = index d.pixels (d.offset x y + 1))
    (h0 : index d'.pixels (d.offset x y) = index d.pixels (d.offset x y)) :
    d'.At x y = d.At x y := by
  have ho : d'.offset x y = d.offset x y := by simp [Device.offset, hp]
  unfold Device.At
  simp only [hb, ho, h1, h0]

/-- What `Set` leaves behind agrees with the buffer before at every `int` index
other than `offset` and `offset + 1`. -/
theorem Set_index_frame (toRGB565 : uint32 → uint32 → uint32 → rgb565)
    (d : Device) (x y : Int) (c : Color) (j : Int)
    (h0 : j ≠ d.offset x y) (h1 : j ≠ d.offset x y + 1) :
    index (d.Set toRGB565 x y c).device.pixels j = index d.pixels j := by
  obtain ⟨_, _, _, _, _, hframe⟩ := Set_frame toRGB565 d x y c
  unfold index
  by_cases hj : 0 ≤ j
  · simp only [if_pos hj]
    exact hframe j.toNat (by omega) (by omega)
  · simp only [if_neg hj]

/-- A sequence of calls leaves the file, the pitch, the bounds, the colour model
and the length of the buffer as they were. -/
theorem runCalls_frame (toRGB565 : uint32 → uint32 → uint32 → rgb565)
    (calls : List Call) (d : Device) :
    (runCalls toRGB565 calls d).device.file = d.file ∧
    (runCalls toRGB565 calls d).device.pitch = d.pitch ∧
    (runCalls toRGB565 calls d).device.bounds = d.bounds ∧
    (runCalls toRGB565 calls d).device.colorModel = d.colorModel ∧
    (runCalls toRGB565 calls d).device.pixels.length = d.pixels.length := by
  induction calls generalizing d with
  | nil => exact ⟨rfl, rfl, rfl, rfl, rfl⟩
  | cons call rest ih =>
    cases call with
    | At x y =>
      cases hat : d.At x y with
      | none => simp only [runCalls, hat]; exact ⟨rfl, rfl, rfl, rfl, rfl⟩
      | some v => simp only [runCalls, hat]; exact ih d
    | Set x y c =>
      obtain ⟨f1, f2, f3, f4, f5, _⟩ := Set_frame toRGB565 d x y c
      cases hset : d.Set toRGB565 x y c with
      | done d' =>
        rw [hset] at f1 f2 f3 f4 f5
        simp only [runCalls, hset]
        obtain ⟨g1, g2, g3, g4, g5⟩ := ih d'
        exact ⟨g1.trans f1, g2.trans f2, g3.trans f3, g4.trans f4, g5.trans f5⟩
      | panic d' =>
        rw [hset] at f1 f2 f3 f4 f5
        simp only [runCalls, hset]
        exact ⟨f1, f2, f3, f4, f5⟩

/-- On a device with bounds `(0,0)-(w,h)` on which both offsets of every
in-bounds pixel are inside the buffer, `At` and `Set` return without a panic
for all integers `x`, `y` and every colour. -/
theorem At_Set_total (toRGB565 : uint32 → uint32 → uint32 → rgb565)
    (d : Device) (w h : Int)
    (hb : d.bounds = ⟨⟨0, 0⟩, ⟨w, h⟩⟩)
    (inside : ∀ x y : Int, 0 ≤ x → x < w → 0 ≤ y → y < h →
      0 ≤ d.offset x y ∧ d.offset x y + 1 < (d.pixels.length : Int))
    (x y : Int) (c : Color) :
    (∃ v, d.At x y = some v) ∧ (∃ d', d.Set toRGB565 x y c = .done d') := by
  constructor
  · by_cases hg : x < d.bounds.Min.X ∨ x ≥ d.bounds.Max.X ∨
        y < d.bounds.Min.Y ∨ y ≥ d.bounds.Max.Y
    · exact ⟨toU16 0, by unfold Device.At; simp only [if_pos hg]⟩
    · have hg' := hg
      simp only [hb, not_or, not_lt, ge_iff_le, not_le] at hg'
      obtain ⟨hx0, hx1, hy0, hy1⟩ := hg'
      obtain ⟨i0, i1⟩ := inside x y hx0 hx1 hy0 hy1
      exact ⟨_, At_of_bytes d x y _ _ hg
        (index_of_inside d.pixels (d.offset x y + 1) (by omega) i1)
        (index_of_inside d.pixels (d.offset x y) i0 (by omega))⟩
  · by_cases hg : x ≥ 0 ∧ x < d.bounds.Max.X ∧ y ≥ 0 ∧ y < d.bounds.Max.Y
    · by_cases ha : c.a.val > 0
      · have hg' := hg
        simp only [hb, ge_iff_le] at hg'
        obtain ⟨hx0, hx1, hy0, hy1⟩ := hg'
        obtain ⟨i0, i1⟩ := inside x y hx0 hx1 hy0 hy1
        obtain ⟨p2, hset, _, _⟩ := Set_writes toRGB565 d x y c hg ha i0 i1
        exact ⟨_, hset⟩
      · exact ⟨d, by unfold Device.Set; simp only [if_pos hg, if_neg ha]⟩
    · exact ⟨d, by unfold Device.Set; simp only [if_neg hg]⟩

/-- Every device `Open` returns has a pitch, a width and a height that are at
least 0 and below `2 ^ 32`: they come from `C.uint` fields. -/
theorem Open_ok_ranges (env : Env) (d : Device) (h : (Open env).1 = .ok d) :
    (0 ≤ d.pitch ∧ d.pitch < 2 ^ 32) ∧
    ∃ w h : Nat, w < 2 ^ 32 ∧ h < 2 ^ 32 ∧
      d.bounds = image.Rect 0 0 (w : Int) (h : Int) := by
  obtain ⟨hb, hp, _⟩ := Open_ok_fields env d h
  have hl := (getFixScreenInfo env.fixQuery).line_length.isLt
  refine ⟨?_, (getVarScreenInfo env.varQuery).xres.val,
    (getVarScreenInfo env.varQuery).yres.val,
    (getVarScreenInfo env.varQuery).xres.isLt,
    (getVarScreenInfo env.varQuery).yres.isLt, hb⟩
  rw [hp]
  have : (2 : Int) ^ 32 = 4294967296 := by norm_num
  omega

/-- Why the exact offset stands for the machine's: with pitch, width and height
below `2 ^ 32` (as on every device `Open` builds) and an in-bounds pixel, either
`offset + 1` is below `2 ^ 63` and the 64-bit offset and its successor are the
exact ones, or `offset + 1` is at least `2 ^ 63`, beyond every slice, and the
index `i + 1` the machine uses first is negative: both panic before any write. -/
theorem offset64_exact_or_negative (d : Device) (w h : Nat) (x y : Int)
    (hw : w < 2 ^ 32) (hh : h < 2 ^ 32)
    (hpitch : 0 ≤ d.pitch ∧ d.pitch < 2 ^ 32)
    (hx : 0 ≤ x ∧ x < (w : Int)) (hy : 0 ≤ y ∧ y < (h : Int)) :
    (d.offset x y + 1 < 9223372036854775808 ∧ d.offset64 x y = d.offset x y ∧
      wrap64 (d.offset64 x y + 1) = d.offset x y + 1) ∨
    (9223372036854775808 ≤ d.offset x y + 1 ∧ wrap64 (d.offset64 x y + 1) < 0) := by
  have hw' : (w : Int) < 4294967296 := by
    have : w < 4294967296 := hw
    omega
  have hh' : (h : Int) < 4294967296 := by
    have : h < 4294967296 := hh
    omega
  have hp1 : d.pitch < 4294967296 := hpitch.2
  have hyp0 : 0 ≤ y * d.pitch := Int.mul_nonneg hy.1 hpitch.1
  have hyp1 : y * d.pitch ≤ 4294967294 * d.pitch :=
    Int.mul_le_mul_of_nonneg_right (by omega) hpitch.1
  unfold Device.offset64 Device.offset wrap64
  generalize y * d.pitch = yp at hyp0 hyp1 ⊢
  omega

/-! ## Pixel access -/

/-- Claim C4 as stated fails: `paddedDevice` is what `Open` returns on a screen
1 pixel wide and 2 rows high at 16 bits per pixel with a row stride of 4 bytes;
its stride is at least width x 2 bytes and its buffer has
width x height x bitsPerPixel / 8 = 4 bytes, yet for the in-bounds pixel (0, 1)
the offset is 4, outside the buffer: `At` panics and `Set` panics. -/
theorem At_Set_panic_on_padded_rows :
    (Open paddedEnv).1 = .ok paddedDevice ∧
    bytesPerPixel paddedDevice.colorModel * 1 ≤ paddedDevice.pitch ∧
    paddedDevice.pixels.length = 1 * 2 * 16 / 8 ∧
    paddedDevice.bounds = image.Rect 0 0 1 2 ∧
    paddedDevice.offset 0 1 = 4 ∧
    paddedDevice.At 0 1 = none ∧
    paddedDevice.Set (constRGB565 0xF800) 0 1 opaqueRed = .panic paddedDevice := by
  refine ⟨?_, ?_, ?_, ?_, ?_, ?_, ?_⟩
  · rfl
  · decide
  · rfl
  · rfl
  · rfl
  · rfl
  · rfl

/-- Claim C4, amended: on a device with bounds `(0,0)-(w,h)` whose stride is at
least width x bytes-per-pixel and whose buffer holds at least stride x height
bytes, `At` and `Set` return without a panic for all integers `x`, `y` and every
colour, and for every in-bounds pixel both offsets `y*pitch + 2*x` and
`y*pitch + 2*x + 1` are inside the buffer. -/
theorem At_Set_never_panic (toRGB565 : uint32 → uint32 → uint32 → rgb565)
    (d : Device) (w h : Nat)
    (hb : d.bounds = image.Rect 0 0 (w : Int) (h : Int))
    (hstride : bytesPerPixel d.colorModel * (w : Int) ≤ d.pitch)
    (hlen : d.pitch * (h : Int) ≤ (d.pixels.length : Int))
    (x y : Int) (c : Color) :
    (∃ v, d.At x y = some v) ∧
    (∃ d', d.Set toRGB565 x y c = .done d') ∧
    (0 ≤ x → x < (w : Int) → 0 ≤ y → y < (h : Int) →
      0 ≤ d.offset x y ∧ d.offset x y + 1 < (d.pixels.length : Int)) := by
  rw [image_Rect_origin] at hb
  have h2 : 2 * (w : Int) ≤ d.pitch := by
    cases hcm : d.colorModel <;> simp [hcm, bytesPerPixel] at hstride <;> omega
  have inside : 0 ≤ x → x < (w : Int) → 0 ≤ y → y < (h : Int) →
      0 ≤ d.offset x y ∧ d.offset x y + 1 < (d.pixels.length : Int) := by
    intro hx0 hx1 hy0 hy1
    have hp0 : 0 ≤ d.pitch := by omega
    have hyp : 0 ≤ y * d.pitch := Int.mul_nonneg hy0 hp0
    have hrow : (y + 1) * d.pitch ≤ d.pitch * (h : Int) := by
      have : (y + 1) * d.pitch ≤ (h : Int) * d.pitch :=
        Int.mul_le_mul_of_nonneg_right (by omega) hp0
      rw [Int.mul_comm d.pitch]; exact this
    have hexp : (y + 1) * d.pitch = y * d.pitch + d.pitch := by ring
    unfold Device.offset
    constructor <;> omega
  refine ⟨?_, ?_, inside⟩
  · unfold Device.At
    split
    · exact ⟨_, rfl⟩
    · rename_i hg
      simp only [hb, not_or, not_lt, ge_iff_le, not_le] at hg
      obtain ⟨hx0, hx1, hy0, hy1⟩ := hg
      obtain ⟨i0, i1⟩ := inside hx0 hx1 hy0 hy1
      simp only [index_of_inside d.pixels (d.offset x y + 1) (by omega) (by omega),
        index_of_inside d.pixels (d.offset x y) i0 (by omega)]
      exact ⟨_, rfl⟩
  · unfold Device.Set
    split
    · rename_i hg
      simp only [hb, ge_iff_le] at hg
      obtain ⟨hx0, hx1, hy0, hy1⟩ := hg
      obtain ⟨i0, i1⟩ := inside hx0 hx1 hy0 hy1
      split
      · simp only [store_of_inside d.pixels (d.offset x y + 1) _ (by omega) (by omega)]
        have hl : d.offset x y <
            ((d.pixels.set (d.offset x y + 1).toNat
              (byte ((toRGB565 c.r c.g c.b).val >>> 8))).length : Int) := by
          simp only [List.length_set]; omega
        simp only [store_of_inside _ (d.offset x y) _ i0 hl]
        exact ⟨_, rfl⟩
      · exact ⟨_, rfl⟩
    · exact ⟨_, rfl⟩

/-- Witness of `At_Set_never_panic`: a device 2 pixels wide and 2 rows high with
6 bytes per row and a buffer of 12 bytes, at pixel (1, 1). -/
theorem At_Set_never_panic_witness :
    (∃ v, (Device.mk 3 (List.replicate 12 0) 6 ⟨⟨0, 0⟩, ⟨2, 2⟩⟩ .rgb565ColorModel).At 1 1
        = some v) ∧
    (∃ d', (Device.mk 3 (List.replicate 12 0) 6 ⟨⟨0, 0⟩, ⟨2, 2⟩⟩ .rgb565ColorModel).Set
        (constRGB565 0xF800) 1 1 opaqueRed = .done d') ∧
    ((0 : Int) ≤ 1 → (1 : Int) < (2 : Nat) → (0 : Int) ≤ 1 → (1 : Int) < (2 : Nat) →
      0 ≤ (Device.mk 3 (List.replicate 12 0) 6 ⟨⟨0, 0⟩, ⟨2, 2⟩⟩ .rgb565ColorModel).offset 1 1 ∧
      (Device.mk 3 (List.replicate 12 0) 6 ⟨⟨0, 0⟩, ⟨2, 2⟩⟩ .rgb565ColorModel).offset 1 1 + 1
        < ((Device.mk 3 (List.replicate 12 0) 6 ⟨⟨0, 0⟩, ⟨2, 2⟩⟩
            .rgb565ColorModel).pixels.length : Int)) :=
  At_Set_never_panic (constRGB565 0xF800)
    (Device.mk 3 (List.replicate 12 0) 6 ⟨⟨0, 0⟩, ⟨2, 2⟩⟩ .rgb565ColorModel) 2 2
    (by decide) (by decide) (by decide) 1 1 opaqueRed

/-- Claim C5, evaluated on the code: `wideDevice` is what `Open` returns with the
RGB888 model (4 bytes per pixel, 8 bytes per row); for pixel (1, 0) the claim
puts the pixel at offset 0 x 8 + 1 x 4 = 4, but `At` and `Set` compute offset
2, and `Set` stores its two bytes at offsets 2 and 3, inside pixel (0, 0). -/
theorem Set_rgb888_uses_two_bytes_per_pixel :
    (Open wideEnv).1 = .ok wideDevice ∧
    wideDevice.ColorModel = .rgb888ColorModel ∧
    0 * wideDevice.pitch + 1 * bytesPerPixel wideDevice.ColorModel = 4 ∧
    wideDevice.offset 1 0 = 2 ∧
    wideDevice.Set (constRGB565 0x1234) 1 0 opaqueRed
      = .done { wideDevice with pixels := [0, 0, 0x34, 0x12, 0, 0, 0, 0] } ∧
    ({ wideDevice with pixels := [0, 0, 0x34, 0x12, 0, 0, 0, 0] } : Device).At 1 0
      = some 0x1234 := by
  refine ⟨?_, ?_, ?_, ?_, ?_, ?_⟩ <;> rfl

/-- Claim C6: on a device with bounds `(0,0)-(w,h)`, for an in-bounds pixel whose
two bytes are inside the buffer and a colour with alpha above 0, `Set` returns,
and `At` on the device it leaves returns exactly the packed value
`toRGB565 r g b`; the high byte of that value is at offset + 1, the low byte at
the offset. -/
theorem Set_then_At (toRGB565 : uint32 → uint32 → uint32 → rgb565)
    (d : Device) (w h : Nat) (x y : Int) (c : Color)
    (hb : d.bounds = image.Rect 0 0 (w : Int) (h : Int))
    (hx : 0 ≤ x ∧ x < (w : Int)) (hy : 0 ≤ y ∧ y < (h : Int))
    (hlo : 0 ≤ d.offset x y) (hhi : d.offset x y + 1 < (d.pixels.length : Int))
    (ha : c.a.val > 0) :
    ∃ d', d.Set toRGB565 x y c = .done d' ∧
      d'.At x y = some (toRGB565 c.r c.g c.b) ∧
      index d'.pixels (d.offset x y + 1) = some (byte ((toRGB565 c.r c.g c.b).val / 256)) ∧
      index d'.pixels (d.offset x y) = some (byte ((toRGB565 c.r c.g c.b).val % 256)) := by
  rw [image_Rect_origin] at hb
  have hg : x ≥ 0 ∧ x < d.bounds.Max.X ∧ y ≥ 0 ∧ y < d.bounds.Max.Y := by
    simp only [hb]; omega
  have hng : ¬ (x < d.bounds.Min.X ∨ x ≥ d.bounds.Max.X ∨
      y < d.bounds.Min.Y ∨ y ≥ d.bounds.Max.Y) := by
    simp only [hb]; omega
  obtain ⟨p2, hset, hi1, hi0⟩ := Set_writes toRGB565 d x y c hg ha hlo hhi
  have hdiv : (toRGB565 c.r c.g c.b).val >>> 8 = (toRGB565 c.r c.g c.b).val / 256 :=
    Nat.shiftRight_eq_div_pow _ 8
  have hmod : (toRGB565 c.r c.g c.b).val &&& 0xFF = (toRGB565 c.r c.g c.b).val % 256 :=
    Nat.and_pow_two_sub_one_eq_mod _ 8
  refine ⟨{ d with pixels := p2 }, hset, ?_, ?_, ?_⟩
  · have hng2 : ¬ (x < ({ d with pixels := p2 } : Device).bounds.Min.X ∨
        x ≥ ({ d with pixels := p2 } : Device).bounds.Max.X ∨
        y < ({ d with pixels := p2 } : Device).bounds.Min.Y ∨
        y ≥ ({ d with pixels := p2 } : Device).bounds.Max.Y) := hng
    have ho : ({ d with pixels := p2 } : Device).offset x y = d.offset x y := rfl
    unfold Device.At
    simp only [if_neg hng2, ho, hi1, hi0]
    exact congrArg some (pack_bytes (toRGB565 c.r c.g c.b))
  · rw [← hdiv]; exact hi1
  · rw [← hmod]; exact hi0

/-- Witness of `Set_then_At`: pixel (1, 1) of a screen 2 pixels wide and 2 rows
high with 6 bytes per row and 12 bytes of buffer, written with opaque red. -/
theorem Set_then_At_witness :
    ∃ d', (Device.mk 3 (List.replicate 12 0) 6 ⟨⟨0, 0⟩, ⟨2, 2⟩⟩
        .rgb565ColorModel).Set (constRGB565 0xF800) 1 1 opaqueRed = .done d' ∧
      d'.At 1 1 = some (constRGB565 0xF800 opaqueRed.r opaqueRed.g opaqueRed.b) ∧
      index d'.pixels ((Device.mk 3 (List.replicate 12 0) 6 ⟨⟨0, 0⟩, ⟨2, 2⟩⟩
        .rgb565ColorModel).offset 1 1 + 1)
        = some (byte ((constRGB565 0xF800 opaqueRed.r opaqueRed.g opaqueRed.b).val / 256)) ∧
      index d'.pixels ((Device.mk 3 (List.replicate 12 0) 6 ⟨⟨0, 0⟩, ⟨2, 2⟩⟩
        .rgb565ColorModel).offset 1 1)
        = some (byte ((constRGB565 0xF800 opaqueRed.r opaqueRed.g opaqueRed.b).val % 256)) :=
  Set_then_At (constRGB565 0xF800)
    (Device.mk 3 (List.replicate 12 0) 6 ⟨⟨0, 0⟩, ⟨2, 2⟩⟩ .rgb565ColorModel)
    2 2 1 1 opaqueRed (by decide) (by decide) (by decide) (by decide)
    (by decide) (by decide)

/-- Claim C7: for every device, all integers `x`, `y` and every colour whose
alpha is zero, `Set` returns and leaves the device, so every byte of the
buffer, as it was. -/
theorem Set_alpha_zero (toRGB565 : uint32 → uint32 → uint32 → rgb565)
    (d : Device) (x y : Int) (c : Color) (ha : c.a.val = 0) :
    d.Set toRGB565 x y c = .done d ∧
    (d.Set toRGB565 x y c).device.pixels = d.pixels := by
  have h : d.Set toRGB565 x y c = .done d := by
    unfold Device.Set
    split
    · simp [ha]
    · rfl
  exact ⟨h, by rw [h]; rfl⟩

/-- Witness of `Set_alpha_zero`: a transparent colour on the in-bounds pixel
(0, 0) of the padded device. -/
theorem Set_alpha_zero_witness :
    paddedDevice.Set (constRGB565 0xF800) 0 0 ⟨65535, 0, 0, 0⟩ = .done paddedDevice ∧
    (paddedDevice.Set (constRGB565 0xF800) 0 0 ⟨65535, 0, 0, 0⟩).device.pixels
      = paddedDevice.pixels :=
  Set_alpha_zero (constRGB565 0xF800) paddedDevice 0 0 ⟨65535, 0, 0, 0⟩ (by decide)

/-- Claim C8: on a device with bounds `(0,0)-(w,h)`, for every colour and every
`(x, y)` with `x < 0`, `x ≥ w`, `y < 0` or `y ≥ h`, `Set` returns and leaves the
device, so the whole buffer, as it was. -/
theorem Set_out_of_bounds (toRGB565 : uint32 → uint32 → uint32 → rgb565)
    (d : Device) (w h : Nat) (x y : Int) (c : Color)
    (hb : d.bounds = image.Rect 0 0 (w : Int) (h : Int))
    (hout : x < 0 ∨ x ≥ (w : Int) ∨ y < 0 ∨ y ≥ (h : Int)) :
    d.Set toRGB565 x y c = .done d ∧
    (d.Set toRGB565 x y c).device.pixels = d.pixels := by
  rw [image_Rect_origin] at hb
  have hng : ¬ (x ≥ 0 ∧ x < d.bounds.Max.X ∧ y ≥ 0 ∧ y < d.bounds.Max.Y) := by
    simp only [hb]; omega
  have h : d.Set toRGB565 x y c = .done d := by
    unfold Device.Set
    simp only [if_neg hng]
  exact ⟨h, by rw [h]; rfl⟩

/-- Witness of `Set_out_of_bounds`: opaque red at (1, 0), one column to the right
of the padded device, which is 1 pixel wide. -/
theorem Set_out_of_bounds_witness :
    paddedDevice.Set (constRGB565 0xF800) 1 0 opaqueRed = .done paddedDevice ∧
    (paddedDevice.Set (constRGB565 0xF800) 1 0 opaqueRed).device.pixels
      = paddedDevice.pixels :=
  Set_out_of_bounds (constRGB565 0xF800) paddedDevice 1 2 1 0 opaqueRed
    (by decide) (by decide)

/-- Claim C9: on a device with bounds `(0,0)-(w,h)`, for every `(x, y)` with
`x < 0`, `x ≥ w`, `y < 0` or `y ≥ h`, `At` returns the packed value 0, and it
does so with any buffer in place of the device's, the empty one included. -/
theorem At_out_of_bounds (d : Device) (w h : Nat) (x y : Int)
    (hb : d.bounds = image.Rect 0 0 (w : Int) (h : Int))
    (hout : x < 0 ∨ x ≥ (w : Int) ∨ y < 0 ∨ y ≥ (h : Int)) :
    d.At x y = some 0 ∧
    ∀ buffer : List Byte, ({ d with pixels := buffer } : Device).At x y = some 0 := by
  rw [image_Rect_origin] at hb
  have key : ∀ buffer : List Byte,
      ({ d with pixels := buffer } : Device).At x y = some 0 := by
    intro buffer
    have hg : x < ({ d with pixels := buffer } : Device).bounds.Min.X ∨
        x ≥ ({ d with pixels := buffer } : Device).bounds.Max.X ∨
        y < ({ d with pixels := buffer } : Device).bounds.Min.Y ∨
        y ≥ ({ d with pixels := buffer } : Device).bounds.Max.Y := by
      simp only [hb]; omega
    unfold Device.At
    simp only [if_pos hg]
    rfl
  exact ⟨key d.pixels, key⟩

/-- Witness of `At_out_of_bounds`: pixel (0, -1) of the padded device. -/
theorem At_out_of_bounds_witness :
    paddedDevice.At 0 (-1) = some 0 ∧
    ∀ buffer : List Byte,
      ({ paddedDevice with pixels := buffer } : Device).At 0 (-1) = some 0 :=
  At_out_of_bounds paddedDevice 1 2 0 (-1) (by decide) (by decide)

/-- Claim C10: on an RGB565 device with bounds `(0,0)-(w,h)` whose pitch, width
and height are below `2 ^ 32` (as on every device `Open` builds), for an
in-bounds pixel and a colour with alpha above 0, `Set` changes no byte of the
buffer other than the two at offsets `y*pitch + 2*x` and `y*pitch + 2*x + 1`,
and the buffer keeps its length.  The row offset is the pitch: when the pitch
exceeds `2*w`, the pixel (0, 1) has offset `pitch`, which is not `2*w`, and
when the bytes `pitch` and `pitch + 1` are inside the buffer that is where
`Set` stores the low and the high byte.  The offsets are also the machine's:
either the 64-bit offset and its successor are the exact ones, or the exact
`offset + 1` is at least `2 ^ 63` and the machine's index `i + 1` is negative,
so that `Set` panics before it writes. -/
theorem Set_touches_only_pixel_bytes (toRGB565 : uint32 → uint32 → uint32 → rgb565)
    (d : Device) (w h : Nat) (x y : Int) (c : Color)
    (_hcm : d.colorModel = .rgb565ColorModel)
    (hb : d.bounds = image.Rect 0 0 (w : Int) (h : Int))
    (hw : w < 2 ^ 32) (hh : h < 2 ^ 32)
    (hpitch : 0 ≤ d.pitch ∧ d.pitch < 2 ^ 32)
    (hx : 0 ≤ x ∧ x < (w : Int)) (hy : 0 ≤ y ∧ y < (h : Int))
    (ha : c.a.val > 0) :
    ((d.Set toRGB565 x y c).device.pixels.length = d.pixels.length ∧
      ∀ j : Nat, (j : Int) ≠ y * d.pitch + 2 * x → (j : Int) ≠ y * d.pitch + 2 * x + 1 →
        (d.Set toRGB565 x y c).device.pixels[j]? = d.pixels[j]?) ∧
    (x = 0 → y = 1 → 2 * (w : Int) < d.pitch →
      y * d.pitch + 2 * x = d.pitch ∧ d.pitch ≠ 2 * (w : Int) ∧
      (d.pitch + 1 < (d.pixels.length : Int) →
        index (d.Set toRGB565 x y c).device.pixels d.pitch
          = some (byte ((toRGB565 c.r c.g c.b).val % 256)) ∧
        index (d.Set toRGB565 x y c).device.pixels (d.pitch + 1)
          = some (byte ((toRGB565 c.r c.g c.b).val / 256)))) ∧
    ((y * d.pitch + 2 * x + 1 < 9223372036854775808 ∧
        d.offset64 x y = y * d.pitch + 2 * x ∧
        wrap64 (d.offset64 x y + 1) = y * d.pitch + 2 * x + 1) ∨
      (9223372036854775808 ≤ y * d.pitch + 2 * x + 1 ∧
        wrap64 (d.offset64 x y + 1) < 0)) := by
  have hmachine := offset64_exact_or_negative d w h x y hw hh hpitch hx hy
  rw [image_Rect_origin] at hb
  have hg : x ≥ 0 ∧ x < d.bounds.Max.X ∧ y ≥ 0 ∧ y < d.bounds.Max.Y := by
    simp only [hb]; omega
  obtain ⟨_, _, _, _, hlen, hframe⟩ := Set_frame toRGB565 d x y c
  refine ⟨⟨hlen, hframe⟩, ?_, hmachine⟩
  intro hx0 hy1 hp
  have hoff : d.offset x y = d.pitch := by
    subst hx0; subst hy1; simp [Device.offset]
  have hoff2 : y * d.pitch + 2 * x = d.pitch := hoff
  refine ⟨hoff2, by omega, ?_⟩
  intro hin
  obtain ⟨p2, hset, hi1, hi0⟩ := Set_writes toRGB565 d x y c hg ha
    (by rw [hoff]; omega) (by rw [hoff]; exact hin)
  have hdiv : (toRGB565 c.r c.g c.b).val >>> 8 = (toRGB565 c.r c.g c.b).val / 256 :=
    Nat.shiftRight_eq_div_pow _ 8
  have hmod : (toRGB565 c.r c.g c.b).val &&& 0xFF = (toRGB565 c.r c.g c.b).val % 256 :=
    Nat.and_pow_two_sub_one_eq_mod _ 8
  rw [hset, hoff] at *
  exact ⟨by rw [← hmod]; exact hi0, by rw [← hdiv]; exact hi1⟩

/-- Witness of `Set_touches_only_pixel_bytes`: pixel (0, 1) of an RGB565 screen
2 pixels wide and 3 rows high with 6 bytes per row and the 12 bytes of buffer
that `Open` maps for it. -/
theorem Set_touches_only_pixel_bytes_witness :
    (((Device.mk 3 (List.replicate 12 0) 6 ⟨⟨0, 0⟩, ⟨2, 3⟩⟩ .rgb565ColorModel).Set
        (constRGB565 0xF800) 0 1 opaqueRed).device.pixels.length
        = (Device.mk 3 (List.replicate 12 0) 6 ⟨⟨0, 0⟩, ⟨2, 3⟩⟩
            .rgb565ColorModel).pixels.length ∧
      ∀ j : Nat,
        (j : Int) ≠ 1 * (Device.mk 3 (List.replicate 12 0) 6 ⟨⟨0, 0⟩, ⟨2, 3⟩⟩
            .rgb565ColorModel).pitch + 2 * 0 →
        (j : Int) ≠ 1 * (Device.mk 3 (List.replicate 12 0) 6 ⟨⟨0, 0⟩, ⟨2, 3⟩⟩
            .rgb565ColorModel).pitch + 2 * 0 + 1 →
        ((Device.mk 3 (List.replicate 12 0) 6 ⟨⟨0, 0⟩, ⟨2, 3⟩⟩ .rgb565ColorModel).Set
          (constRGB565 0xF800) 0 1 opaqueRed).device.pixels[j]?
          = (Device.mk 3 (List.replicate 12 0) 6 ⟨⟨0, 0⟩, ⟨2, 3⟩⟩
              .rgb565ColorModel).pixels[j]?) ∧
    ((0 : Int) = 0 → (1 : Int) = 1 →
      2 * ((2 : Nat) : Int) < (Device.mk 3 (List.replicate 12 0) 6 ⟨⟨0, 0⟩, ⟨2, 3⟩⟩
          .rgb565ColorModel).pitch →
      1 * (Device.mk 3 (List.replicate 12 0) 6 ⟨⟨0, 0⟩, ⟨2, 3⟩⟩ .rgb565ColorModel).pitch
          + 2 * 0
        = (Device.mk 3 (List.replicate 12 0) 6 ⟨⟨0, 0⟩, ⟨2, 3⟩⟩ .rgb565ColorModel).pitch ∧
      (Device.mk 3 (List.replicate 12 0) 6 ⟨⟨0, 0⟩, ⟨2, 3⟩⟩ .rgb565ColorModel).pitch
        ≠ 2 * ((2 : Nat) : Int) ∧
      ((Device.mk 3 (List.replicate 12 0) 6 ⟨⟨0, 0⟩, ⟨2, 3⟩⟩ .rgb565ColorModel).pitch + 1
          < ((Device.mk 3 (List.replicate 12 0) 6 ⟨⟨0, 0⟩, ⟨2, 3⟩⟩
              .rgb565ColorModel).pixels.length : Int) →
        index ((Device.mk 3 (List.replicate 12 0) 6 ⟨⟨0, 0⟩, ⟨2, 3⟩⟩ .rgb565ColorModel).Set
            (constRGB565 0xF800) 0 1 opaqueRed).device.pixels
            (Device.mk 3 (List.replicate 12 0) 6 ⟨⟨0, 0⟩, ⟨2, 3⟩⟩ .rgb565ColorModel).pitch
          = some (byte ((constRGB565 0xF800 opaqueRed.r opaqueRed.g opaqueRed.b).val % 256)) ∧
        index ((Device.mk 3 (List.replicate 12 0) 6 ⟨⟨0, 0⟩, ⟨2, 3⟩⟩ .rgb565ColorModel).Set
            (constRGB565 0xF800) 0 1 opaqueRed).device.pixels
            ((Device.mk 3 (List.replicate 12 0) 6 ⟨⟨0, 0⟩, ⟨2, 3⟩⟩
              .rgb565ColorModel).pitch + 1)
          = some (byte ((constRGB565 0xF800 opaqueRed.r opaqueRed.g opaqueRed.b).val / 256)))) ∧
    ((1 * (Device.mk 3 (List.replicate 12 0) 6 ⟨⟨0, 0⟩, ⟨2, 3⟩⟩ .rgb565ColorModel).pitch
          + 2 * 0 + 1 < 9223372036854775808 ∧
        (Device.mk 3 (List.replicate 12 0) 6 ⟨⟨0, 0⟩, ⟨2, 3⟩⟩ .rgb565ColorModel).offset64 0 1
          = 1 * (Device.mk 3 (List.replicate 12 0) 6 ⟨⟨0, 0⟩, ⟨2, 3⟩⟩
              .rgb565ColorModel).pitch + 2 * 0 ∧
        wrap64 ((Device.mk 3 (List.replicate 12 0) 6 ⟨⟨0, 0⟩, ⟨2, 3⟩⟩
            .rgb565ColorModel).offset64 0 1 + 1)
          = 1 * (Device.mk 3 (List.replicate 12 0) 6 ⟨⟨0, 0⟩, ⟨2, 3⟩⟩
              .rgb565ColorModel).pitch + 2 * 0 + 1) ∨
      (9223372036854775808
          ≤ 1 * (Device.mk 3 (List.replicate 12 0) 6 ⟨⟨0, 0⟩, ⟨2, 3⟩⟩
              .rgb565ColorModel).pitch + 2 * 0 + 1 ∧
        wrap64 ((Device.mk 3 (List.replicate 12 0) 6 ⟨⟨0, 0⟩, ⟨2, 3⟩⟩
            .rgb565ColorModel).offset64 0 1 + 1) < 0)) :=
  Set_touches_only_pixel_bytes (constRGB565 0xF800)
    (Device.mk 3 (List.replicate 12 0) 6 ⟨⟨0, 0⟩, ⟨2, 3⟩⟩ .rgb565ColorModel)
    2 3 0 1 opaqueRed rfl (by decide) (by decide) (by decide) (by decide)
    (by decide) (by decide) (by decide)

/-! ## Opening the device -/

/-- Claim C11 as stated fails: for a screen of 65536 x 65536 pixels at 16 bits
per pixel the mathematical value width x height x bitsPerPixel / 8 is
8589934592, but the product wraps in `C.uint` and `Open` asks for 0 bytes; and
for 1 x 1 pixel at 4 bits per pixel the division rounds down to 0 bytes, so
that 8 times the length is not the number of bits. -/
theorem mmapLength_wraps :
    hugeVarInfo.xres.val * hugeVarInfo.yres.val * hugeVarInfo.bits_per_pixel.val / 8
      = 8589934592 ∧
    mmapLength hugeVarInfo = 0 ∧
    (Open (lengthProbe hugeVarInfo)).1 = .error (.mmap 0) ∧
    mmapLength ⟨1, 1, 4, ⟨0, 0, 0⟩, ⟨0, 0, 0⟩, ⟨0, 0, 0⟩⟩ * 8 ≠ 1 * 1 * 4 := by
  refine ⟨by decide, by decide, rfl, by decide⟩

/-- Claim C11, amended: whenever the product width x height x bitsPerPixel is
below 2 ^ 32, the byte length `Open` requests for the mapping is
width x height x bitsPerPixel / 8, rounded down. -/
theorem mmapLength_eq (varInfo : fb_var_screeninfo)
    (hsmall : varInfo.xres.val * varInfo.yres.val * varInfo.bits_per_pixel.val < 2 ^ 32) :
    mmapLength varInfo
      = varInfo.xres.val * varInfo.yres.val * varInfo.bits_per_pixel.val / 8 ∧
    (Open (lengthProbe varInfo)).1
      = .error (.mmap
          (varInfo.xres.val * varInfo.yres.val * varInfo.bits_per_pixel.val / 8)) := by
  have hs : varInfo.xres.val * varInfo.yres.val * varInfo.bits_per_pixel.val
      < 4294967296 := hsmall
  have hgen : mmapLength varInfo
      = varInfo.xres.val * varInfo.yres.val * varInfo.bits_per_pixel.val % 4294967296 / 8 := by
    unfold mmapLength
    have : (varInfo.xres.val * varInfo.yres.val % 4294967296)
        * varInfo.bits_per_pixel.val % 4294967296
        = varInfo.xres.val * varInfo.yres.val * varInfo.bits_per_pixel.val % 4294967296 := by
      rw [Nat.mul_mod, Nat.mod_mod, ← Nat.mul_mod]
    rw [this]
  have hlen : mmapLength varInfo
      = varInfo.xres.val * varInfo.yres.val * varInfo.bits_per_pixel.val / 8 := by
    rw [hgen, Nat.mod_eq_of_lt hs]
  refine ⟨hlen, ?_⟩
  simp [Open, lengthProbe, getVarScreenInfo, hlen]

/-- Witness of `mmapLength_eq`: the 320 x 240 screen at 16 bits per pixel, for
which `Open` asks for 153600 bytes. -/
theorem mmapLength_eq_witness :
    mmapLength scenarioVarInfo
      = scenarioVarInfo.xres.val * scenarioVarInfo.yres.val
          * scenarioVarInfo.bits_per_pixel.val / 8 ∧
    (Open (lengthProbe scenarioVarInfo)).1
      = .error (.mmap
          (scenarioVarInfo.xres.val * scenarioVarInfo.yres.val
            * scenarioVarInfo.bits_per_pixel.val / 8)) :=
  mmapLength_eq scenarioVarInfo (by decide)

/-- Claim C12, evaluated on the code: when the file opens, the mapping is made
and the layout is not one `Open` takes (here all nine fields 0), `Open` returns
the unsupported-colour-model error while the file is still open and the
mapping still in place. -/
theorem Open_unsupported_keeps_resources (file : File) (fixInfo : fb_fix_screeninfo)
    (xres yres bpp : uint32) (pixels : List Byte) :
    Open (envOk file fixInfo ⟨xres, yres, bpp, ⟨0, 0, 0⟩, ⟨0, 0, 0⟩, ⟨0, 0, 0⟩⟩ pixels)
      = (.error (.unsupportedColorModel
          (unsupportedMessage ⟨xres, yres, bpp, ⟨0, 0, 0⟩, ⟨0, 0, 0⟩, ⟨0, 0, 0⟩⟩)),
         ⟨true, true⟩) := by
  simp [Open, envOk, getVarScreenInfo, detectColorMode]

/-- Claim C13: when the file opens and the mapping call fails with `err`, `Open`
returns that mapping error and no device, and the file is closed (and nothing
is mapped) when it returns. -/
theorem Open_mmap_failure_closes_file (env : Env) (file : File) (err : Errno)
    (hopen : env.openFile = .ok file)
    (hmmap : env.mmap (mmapLength (getVarScreenInfo env.varQuery)) = .error err) :
    (Open env).1 = .error (.mmap err) ∧
    (Open env).2.fileOpen = false ∧ (Open env).2.mapped = false := by
  simp [Open, hopen, hmmap]

/-- Witness of `Open_mmap_failure_closes_file`: the file opens as descriptor 3
and every mapping call fails with error number 12. -/
theorem Open_mmap_failure_closes_file_witness :
    (Open ⟨.ok 3, ⟨0, ⟨4⟩⟩, ⟨0, paddedVarInfo⟩, fun _ => .error 12⟩).1 = .error (.mmap 12) ∧
    (Open ⟨.ok 3, ⟨0, ⟨4⟩⟩, ⟨0, paddedVarInfo⟩, fun _ => .error 12⟩).2.fileOpen = false ∧
    (Open ⟨.ok 3, ⟨0, ⟨4⟩⟩, ⟨0, paddedVarInfo⟩, fun _ => .error 12⟩).2.mapped = false :=
  Open_mmap_failure_closes_file ⟨.ok 3, ⟨0, ⟨4⟩⟩, ⟨0, paddedVarInfo⟩, fun _ => .error 12⟩
    3 12 rfl rfl

/-- Claim C14, evaluated on the code: the result of `Open` does not depend on the
status of either query, and when both queries fail with status -1 and leave the
records of the padded screen behind, `Open` succeeds and returns a device. -/
theorem Open_ignores_query_status (env : Env) (sfix svar : Int) :
    Open ⟨env.openFile, ⟨sfix, env.fixQuery.info⟩, ⟨svar, env.varQuery.info⟩, env.mmap⟩
      = Open env ∧
    (Open ⟨.ok 3, ⟨-1, ⟨4⟩⟩, ⟨-1, paddedVarInfo⟩, fun n => .ok (List.replicate n 0)⟩).1
      = .ok paddedDevice := by
  refine ⟨rfl, rfl⟩

/-- Claim C17, evaluated on the code: with the layout red 16/8/0, green 8/8/8,
blue 0/0/0, the file opened and the mapping made, `Open` succeeds and the
colour model of the device it returns is the RGB888 model, not RGB565. -/
theorem Open_returns_rgb888_model (file : File) (fixInfo : fb_fix_screeninfo)
    (xres yres bpp : uint32) (pixels : List Byte) :
    (Open (envOk file fixInfo ⟨xres, yres, bpp, ⟨16, 8, 0⟩, ⟨8, 8, 8⟩, ⟨0, 0, 0⟩⟩ pixels)).1
      = .ok ⟨file, pixels, (fixInfo.line_length.val : Int),
             image.Rect 0 0 (xres.val : Int) (yres.val : Int), .rgb888ColorModel⟩ ∧
    (Device.mk file pixels (fixInfo.line_length.val : Int)
        (image.Rect 0 0 (xres.val : Int) (yres.val : Int)) .rgb888ColorModel).ColorModel
      ≠ .rgb565ColorModel := by
  refine ⟨?_, by simp [Device.ColorModel]⟩
  simp [Open, envOk, getVarScreenInfo, getFixScreenInfo, detectColorMode]

/-! ## The scenario of the spec, invariance and independence -/

/-- Claim C15 as stated fails in its buffer length: for width 320, height 240
and 16 bits per pixel `Open` asks for 320 x 240 x 16 / 8 = 153600 bytes, not
76800 (76800 is the number of pixels). -/
theorem scenario_buffer_length :
    scenarioVarInfo.xres.val = 320 ∧ scenarioVarInfo.yres.val = 240 ∧
    scenarioVarInfo.bits_per_pixel.val = 16 ∧
    mmapLength scenarioVarInfo = 153600 ∧
    mmapLength scenarioVarInfo ≠ 76800 ∧
    (Open (lengthProbe scenarioVarInfo)).1 = .error (.mmap 153600) := by
  refine ⟨rfl, rfl, rfl, by decide, by decide, rfl⟩

/-- Claim C15, amended: on a device with width 320, height 240, stride 640 and a
buffer of 153600 bytes, with a conversion that packs opaque red (R = 255,
G = 0, B = 0, A = 255, that is 0xFFFF, 0, 0, 0xFFFF from `RGBA()`) to 0xF800,
pixel (5, 5) has offset 3210, `Set(5, 5, red)` returns with byte 0x00 at
offset 3210 and byte 0xF8 at offset 3211, and `At(5, 5)` then returns 0xF800. -/
theorem scenario_Set_At (toRGB565 : uint32 → uint32 → uint32 → rgb565) (d : Device)
    (hb : d.bounds = image.Rect 0 0 320 240) (hp : d.pitch = 640)
    (hl : d.pixels.length = 153600)
    (hconv : toRGB565 65535 0 0 = 0xF800) :
    5 * d.pitch + 2 * 5 = 3210 ∧
    ∃ d', d.Set toRGB565 5 5 opaqueRed = .done d' ∧
      index d'.pixels 3210 = some 0x00 ∧
      index d'.pixels 3211 = some 0xF8 ∧
      d'.At 5 5 = some 0xF800 := by
  have hb' : d.bounds = ⟨⟨0, 0⟩, ⟨320, 240⟩⟩ := by rw [hb]; rfl
  have hoff : d.offset 5 5 = 3210 := by simp [Device.offset, hp]
  have hg : (5 : Int) ≥ 0 ∧ (5 : Int) < d.bounds.Max.X ∧
      (5 : Int) ≥ 0 ∧ (5 : Int) < d.bounds.Max.Y := by
    simp only [hb']; omega
  have hng : ¬ ((5 : Int) < d.bounds.Min.X ∨ (5 : Int) ≥ d.bounds.Max.X ∨
      (5 : Int) < d.bounds.Min.Y ∨ (5 : Int) ≥ d.bounds.Max.Y) := by
    simp only [hb']; omega
  obtain ⟨p2, hset, hi1, hi0⟩ := Set_writes toRGB565 d 5 5 opaqueRed hg (by decide)
    (by rw [hoff]; omega) (by rw [hoff, hl]; omega)
  have hc : toRGB565 opaqueRed.r opaqueRed.g opaqueRed.b = 0xF800 := hconv
  rw [hc, hoff] at hi1 hi0
  have hhi : byte ((0xF800 : rgb565).val >>> 8) = 0xF8 := by decide
  have hlo : byte ((0xF800 : rgb565).val &&& 0xFF) = 0x00 := by decide
  rw [hhi] at hi1
  rw [hlo] at hi0
  refine ⟨by rw [hp]; rfl, { d with pixels := p2 }, hset, hi0, hi1, ?_⟩
  have hat := At_of_bytes ({ d with pixels := p2 } : Device) 5 5 0xF8 0x00 hng
    (by show index p2 (d.offset 5 5 + 1) = _; rw [hoff]; exact hi1)
    (by show index p2 (d.offset 5 5) = _; rw [hoff]; exact hi0)
  rw [hat]
  decide

/-- Witness of `scenario_Set_At`: the device of the scenario with the conversion
`toRGB565` modelled from the spec, which packs opaque red to 0xF800. -/
theorem scenario_Set_At_witness :
    5 * scenarioDevice.pitch + 2 * 5 = 3210 ∧
    ∃ d', scenarioDevice.Set toRGB565 5 5 opaqueRed = .done d' ∧
      index d'.pixels 3210 = some 0x00 ∧
      index d'.pixels 3211 = some 0xF8 ∧
      d'.At 5 5 = some 0xF800 :=
  scenario_Set_At toRGB565 scenarioDevice rfl rfl (List.length_replicate 153600 0) (by decide)

/-- Claim C16: a device that `Open` returns has the bounds with origin (0, 0) and
extent (xres, yres) as probed, and after any sequence of `Set` and `At` calls
its bounds, colour model, stride and buffer length are what they were right
after `Open`. -/
theorem Bounds_constant (toRGB565 : uint32 → uint32 → uint32 → rgb565)
    (env : Env) (d : Device) (hopen : (Open env).1 = .ok d) :
    d.Bounds = ⟨⟨0, 0⟩, ⟨((getVarScreenInfo env.varQuery).xres.val : Int),
      ((getVarScreenInfo env.varQuery).yres.val : Int)⟩⟩ ∧
    ∀ calls : List Call,
      (runCalls toRGB565 calls d).device.Bounds = d.Bounds ∧
      (runCalls toRGB565 calls d).device.ColorModel = d.ColorModel ∧
      (runCalls toRGB565 calls d).device.pitch = d.pitch ∧
      (runCalls toRGB565 calls d).device.pixels.length = d.pixels.length := by
  obtain ⟨hb, _, _⟩ := Open_ok_fields env d hopen
  rw [image_Rect_origin] at hb
  refine ⟨hb, ?_⟩
  intro calls
  obtain ⟨_, f2, f3, f4, f5⟩ := runCalls_frame toRGB565 calls d
  exact ⟨f3, f4, f2, f5⟩

/-- Witness of `Bounds_constant`: the padded device as `Open` returns it. -/
theorem Bounds_constant_witness :
    paddedDevice.Bounds = ⟨⟨0, 0⟩, ⟨((getVarScreenInfo paddedEnv.varQuery).xres.val : Int),
      ((getVarScreenInfo paddedEnv.varQuery).yres.val : Int)⟩⟩ ∧
    ∀ calls : List Call,
      (runCalls toRGB565 calls paddedDevice).device.Bounds = paddedDevice.Bounds ∧
      (runCalls toRGB565 calls paddedDevice).device.ColorModel = paddedDevice.ColorModel ∧
      (runCalls toRGB565 calls paddedDevice).device.pitch = paddedDevice.pitch ∧
      (runCalls toRGB565 calls paddedDevice).device.pixels.length
        = paddedDevice.pixels.length :=
  Bounds_constant toRGB565 paddedEnv paddedDevice rfl

/-- Claim C18: on a device with bounds `(0,0)-(w,h)` and stride at least
`2*w`, for two distinct in-bounds pixels whose bytes are inside the buffer and
every colour, the byte pairs of the two pixels do not overlap, and `Set` on the
first pixel does not change what `At` returns for the second. -/
theorem Set_keeps_other_pixels (toRGB565 : uint32 → uint32 → uint32 → rgb565)
    (d : Device) (w h : Nat) (x y x' y' : Int) (c : Color)
    (_hb : d.bounds = image.Rect 0 0 (w : Int) (h : Int))
    (hstride : 2 * (w : Int) ≤ d.pitch)
    (hx : 0 ≤ x ∧ x < (w : Int)) (_hy : 0 ≤ y ∧ y < (h : Int))
    (hx' : 0 ≤ x' ∧ x' < (w : Int)) (hy' : 0 ≤ y' ∧ y' < (h : Int))
    (hne : (x, y) ≠ (x', y'))
    (_hin : 0 ≤ d.offset x y ∧ d.offset x y + 1 < (d.pixels.length : Int))
    (_hin' : 0 ≤ d.offset x' y' ∧ d.offset x' y' + 1 < (d.pixels.length : Int)) :
    (d.offset x' y' + 1 < d.offset x y ∨ d.offset x y + 1 < d.offset x' y') ∧
    (d.Set toRGB565 x y c).device.At x' y' = d.At x' y' := by
  have hp0 : 0 ≤ d.pitch := by omega
  have hsep : d.offset x' y' + 1 < d.offset x y ∨ d.offset x y + 1 < d.offset x' y' := by
    unfold Device.offset
    rcases lt_trichotomy y y' with hlt | heq | hgt
    · right
      have h1 : (y + 1) * d.pitch ≤ y' * d.pitch :=
        Int.mul_le_mul_of_nonneg_right (by omega) hp0
      have h2 : (y + 1) * d.pitch = y * d.pitch + d.pitch := by ring
      omega
    · subst heq
      have hxne : x ≠ x' := fun hxx => hne (by rw [hxx])
      rcases lt_or_gt_of_ne hxne with hlt | hgt
      · right; omega
      · left; omega
    · left
      have h1 : (y' + 1) * d.pitch ≤ y * d.pitch :=
        Int.mul_le_mul_of_nonneg_right (by omega) hp0
      have h2 : (y' + 1) * d.pitch = y' * d.pitch + d.pitch := by ring
      omega
  refine ⟨hsep, ?_⟩
  obtain ⟨_, f2, f3, _, _, _⟩ := Set_frame toRGB565 d x y c
  exact At_congr d (d.Set toRGB565 x y c).device x' y' f3 f2
    (Set_index_frame toRGB565 d x y c _ (by omega) (by omega))
    (Set_index_frame toRGB565 d x y c _ (by omega) (by omega))

/-- Witness of `Set_keeps_other_pixels`: pixels (1, 1) and (0, 1) of a screen
2 pixels wide and 2 rows high with 6 bytes per row and 12 bytes of buffer. -/
theorem Set_keeps_other_pixels_witness :
    ((Device.mk 3 (List.replicate 12 0) 6 ⟨⟨0, 0⟩, ⟨2, 2⟩⟩ .rgb565ColorModel).offset 0 1 + 1
        < (Device.mk 3 (List.replicate 12 0) 6 ⟨⟨0, 0⟩, ⟨2, 2⟩⟩ .rgb565ColorModel).offset 1 1 ∨
      (Device.mk 3 (List.replicate 12 0) 6 ⟨⟨0, 0⟩, ⟨2, 2⟩⟩ .rgb565ColorModel).offset 1 1 + 1
        < (Device.mk 3 (List.replicate 12 0) 6 ⟨⟨0, 0⟩, ⟨2, 2⟩⟩
            .rgb565ColorModel).offset 0 1) ∧
    ((Device.mk 3 (List.replicate 12 0) 6 ⟨⟨0, 0⟩, ⟨2, 2⟩⟩ .rgb565ColorModel).Set
        toRGB565 1 1 opaqueRed).device.At 0 1
      = (Device.mk 3 (List.replicate 12 0) 6 ⟨⟨0, 0⟩, ⟨2, 2⟩⟩ .rgb565ColorModel).At 0 1 :=
  Set_keeps_other_pixels toRGB565
    (Device.mk 3 (List.replicate 12 0) 6 ⟨⟨0, 0⟩, ⟨2, 2⟩⟩ .rgb565ColorModel)
    2 2 1 1 0 1 opaqueRed (by decide) (by decide) (by decide) (by decide) (by decide)
    (by decide) (by decide) (by decide) (by decide)

/-- Claim C19: on a device with bounds `(0,0)-(w,h)`, 16 or 32 bits per pixel, a
stride of `w * bpp / 8` bytes (no padding) and a buffer of `w * h * bpp / 8`
bytes, for every in-bounds pixel the indices `y*pitch + 2*x` and
`y*pitch + 2*x + 1` are at least 0 and below the buffer length, and `At` and
`Set` return without a panic for all integers `x`, `y` and every colour. -/
theorem offsets_in_range_without_padding
    (toRGB565 : uint32 → uint32 → uint32 → rgb565)
    (d : Device) (w h bpp : Nat)
    (hb : d.bounds = image.Rect 0 0 (w : Int) (h : Int))
    (hbpp : bpp = 16 ∨ bpp = 32)
    (hstride : d.pitch = ((w * bpp / 8 : Nat) : Int))
    (hlen : d.pixels.length = w * h * bpp / 8) :
    (∀ x y : Int, 0 ≤ x → x < (w : Int) → 0 ≤ y → y < (h : Int) →
      0 ≤ y * d.pitch + 2 * x ∧
      y * d.pitch + 2 * x + 1 < (d.pixels.length : Int)) ∧
    (∀ (x y : Int) (c : Color),
      (∃ v, d.At x y = some v) ∧ (∃ d', d.Set toRGB565 x y c = .done d')) := by
  rw [image_Rect_origin] at hb
  have inside : ∀ x y : Int, 0 ≤ x → x < (w : Int) → 0 ≤ y → y < (h : Int) →
      0 ≤ d.offset x y ∧ d.offset x y + 1 < (d.pixels.length : Int) := by
    intro x y hx0 hx1 hy0 hy1
    unfold Device.offset
    have hrow : (y + 1) * (w : Int) ≤ (h : Int) * (w : Int) :=
      Int.mul_le_mul_of_nonneg_right (by omega) (by omega)
    have hexp : (y + 1) * (w : Int) = y * (w : Int) + (w : Int) := by ring
    have hyw : 0 ≤ y * (w : Int) := Int.mul_nonneg hy0 (by omega)
    have hwh : ((w * h : Nat) : Int) = (h : Int) * (w : Int) := by push_cast; ring
    rcases hbpp with h16 | h32
    · subst h16
      have hpitch : d.pitch = 2 * (w : Int) := by rw [hstride]; omega
      have hl : (d.pixels.length : Int) = 2 * ((w * h : Nat) : Int) := by
        rw [hlen]; omega
      have hy2 : y * d.pitch = 2 * (y * (w : Int)) := by rw [hpitch]; ring
      omega
    · subst h32
      have hpitch : d.pitch = 4 * (w : Int) := by rw [hstride]; omega
      have hl : (d.pixels.length : Int) = 4 * ((w * h : Nat) : Int) := by
        rw [hlen]; omega
      have hy2 : y * d.pitch = 4 * (y * (w : Int)) := by rw [hpitch]; ring
      omega
  exact ⟨inside, fun x y c => At_Set_total toRGB565 d w h hb inside x y c⟩

/-- Witness of `offsets_in_range_without_padding`: a screen 2 pixels wide and
2 rows high at 16 bits per pixel, 4 bytes per row, 8 bytes of buffer. -/
theorem offsets_in_range_without_padding_witness :
    (∀ x y : Int, 0 ≤ x → x < ((2 : Nat) : Int) → 0 ≤ y → y < ((2 : Nat) : Int) →
      0 ≤ y * (Device.mk 3 (List.replicate 8 0) 4 ⟨⟨0, 0⟩, ⟨2, 2⟩⟩ .rgb565ColorModel).pitch
          + 2 * x ∧
      y * (Device.mk 3 (List.replicate 8 0) 4 ⟨⟨0, 0⟩, ⟨2, 2⟩⟩ .rgb565ColorModel).pitch
          + 2 * x + 1
        < ((Device.mk 3 (List.replicate 8 0) 4 ⟨⟨0, 0⟩, ⟨2, 2⟩⟩
            .rgb565ColorModel).pixels.length : Int)) ∧
    (∀ (x y : Int) (c : Color),
      (∃ v, (Device.mk 3 (List.replicate 8 0) 4 ⟨⟨0, 0⟩, ⟨2, 2⟩⟩ .rgb565ColorModel).At x y
        = some v) ∧
      (∃ d', (Device.mk 3 (List.replicate 8 0) 4 ⟨⟨0, 0⟩, ⟨2, 2⟩⟩ .rgb565ColorModel).Set
        toRGB565 x y c = .done d')) :=
  offsets_in_range_without_padding toRGB565
    (Device.mk 3 (List.replicate 8 0) 4 ⟨⟨0, 0⟩, ⟨2, 2⟩⟩ .rgb565ColorModel)
    2 2 16 (by decide) (by decide) (by decide) (by decide)

end framebuffer
